import Mathlib

/-!
Verification development for the SIOP/OpenID4VP authorization-response
pipeline (source files: rp/Builder.ts, authorization-response/types.ts,
types/Errors.ts).

The TypeScript source is shallowly embedded: JavaScript values that may be
undefined become Option, JavaScript truthiness on strings and numbers is made
explicit (the empty string and zero are falsy), thrown errors become
Except.error, and external capabilities (DID resolution, JWT parsing and
signature verification, presentation-exchange matching, revocation and
linked-domain callbacks) are passed in as function-valued parameters.
A property access on an undefined value is modelled as a typeError result,
matching the TypeError a JavaScript runtime raises.

The error enum in types/Errors.ts does not contain every member the response
code refers to (for example EXPIRED and the presentation-exchange members);
those members live in a part of the repository that is not among the given
sources and are modelled here as additional constructors of the same
inductive, named after their use sites.
-/

/-- Errors raised by the response pipeline. Constructors mirror the members of
the SIOPErrors enum used by rp/Builder.ts; typeError models a JavaScript
TypeError raised by a property access on undefined, and capability wraps a
failure reported by an external capability. -/
inductive SIOPError where
  | badParams
  | noSelfissuedIss
  | invalidAudience
  | noNonce
  | expired
  | noJwt
  | verifyBadParams
  | signatureObjectTypeNotSet
  | authRequestExpectsVp
  | authRequestDoesntExpectVp
  | vpVerificationFunctionMissing
  | requestClaimsPresentationDefNotValid
  | noSupportedVersion
  | typeError (site : String)
  | capability (tag : String)
deriving DecidableEq, Repr

/-- JavaScript truthiness of an optional string: undefined and the empty
string are falsy. -/
def truthyS : Option String → Bool
  | none => false
  | some s => !s.isEmpty

/-- JavaScript truthiness of an optional number: undefined and zero are
falsy. -/
def truthyN : Option Nat → Bool
  | none => false
  | some n => n != 0

/-- JavaScript `a || b` on an optional string with a string default. -/
def jsOrS (o : Option String) (d : String) : String :=
  match o with
  | some s => if s.isEmpty then d else s
  | none => d

/-- JavaScript `a || b` on an optional number with a number default. -/
def natOr (o : Option Nat) (d : Nat) : Nat :=
  match o with
  | some n => if n = 0 then d else n
  | none => d

/-- Modelled from the spec: the fixed self-issued identifier constant
(ResponseIss.SELF_ISSUED_V2, defined in a types module that is not among the
given sources). -/
def SELF_ISSUED_V2 : String := "https://self-issued.me/v2"

/-- Claims of a decoded response JWT, as read by assertValidResponseJWT:
issuer, audience, nonce and expiry, each possibly undefined. -/
structure ResponseClaims where
  iss : Option String
  aud : Option String
  nonce : Option String
  exp : Option Nat
deriving DecidableEq, Repr

/-- Argument record of assertValidResponseJWT (rp/Builder.ts lines 522-547):
a header, an optional parsed payload (triggering the issuer check), an
optional verified payload (triggering nonce, expiry and audience checks) and
the expected audience. -/
structure AssertJWTArgs where
  header : Option Unit
  payload : Option ResponseClaims
  verPayload : Option ResponseClaims
  audience : Option String

/-- Embedding of assertValidResponseJWT (rp/Builder.ts lines 522-547). The
parameter now is the verification time in seconds, standing for
Date.now()/1000. The function takes no signature or key material: claims
validation is independent of signature validity by construction. -/
def assertValidResponseJWT (now : Nat) (a : AssertJWTArgs) : Except SIOPError Unit :=
  if a.header.isNone then .error .badParams
  else
    match a.payload with
    | some p =>
      if p.iss ≠ some SELF_ISSUED_V2 then .error .noSelfissuedIss
      else assertVerPayload now a
    | none => assertVerPayload now a
where
  /-- Checks on the verified payload: nonce presence, expiry, audience
  symmetry, in source order. -/
  assertVerPayload (now : Nat) (a : AssertJWTArgs) : Except SIOPError Unit :=
    match a.verPayload with
    | none => .ok ()
    | some vp =>
      if !truthyS vp.nonce then .error .noNonce
      else if !truthyN vp.exp || decide ((vp.exp.getD 0) < now) then .error .expired
      else if (truthyS vp.aud && !truthyS a.audience) || (!truthyS vp.aud && truthyS a.audience) then .error .badParams
      else if truthyS a.audience && decide (a.audience ≠ vp.aud) then .error .invalidAudience
      else .ok ()

/-- C6: for every verification call at time now, a verified payload whose exp
claim is absent or earlier than now fails claims validation with the Expired
error (given the nonce check that the source runs first passes). The claims
validator assertValidResponseJWT takes no signature input, so the verdict is
independent of signature validity. The argument record matches the call site
at rp/Builder.ts line 483: header present, payload absent, verPayload set. -/
theorem expired_token_fails_claims_validation (now : Nat) (vp : ResponseClaims)
    (aud : Option String)
    (hnonce : truthyS vp.nonce = true)
    (hexp : vp.exp = none ∨ ∃ v, vp.exp = some v ∧ v < now) :
    assertValidResponseJWT now
      { header := some (), payload := none, verPayload := some vp, audience := aud } =
      .error .expired := by
  unfold assertValidResponseJWT assertValidResponseJWT.assertVerPayload
  rcases hexp with h | ⟨v, hv, hlt⟩
  · simp [h, hnonce, truthyN]
  · rcases Nat.eq_zero_or_pos v with hz | hp
    · simp [hv, hz, hnonce, truthyN]
    · simp [hv, hnonce, truthyN, Nat.pos_iff_ne_zero.mp hp, hlt]

/-- Witness for the C6 theorem at a concrete expired token. -/
theorem expired_token_fails_claims_validation_witness :
    assertValidResponseJWT 1000
      { header := some (), payload := none,
        verPayload := some { iss := none, aud := none, nonce := some "n-1", exp := some 999 },
        audience := none } =
      .error .expired :=
  expired_token_fails_claims_validation 1000
    { iss := none, aud := none, nonce := some "n-1", exp := some 999 } none
    (by decide) (Or.inr ⟨999, rfl, by decide⟩)

/-- C4: audience symmetry of claims validation (rp/Builder.ts lines 541-545).
Given a verified payload that passes the nonce and expiry checks, a truthy
aud with no expected audience or a missing aud with an expected audience
fails with the audience-mismatch error (BAD_PARAMS in the source enum), both
present but unequal fails with INVALID_AUDIENCE, and both absent or both
present and equal passes. -/
theorem audience_symmetry (now : Nat) (vp : ResponseClaims) (audience : Option String)
    (hnonce : truthyS vp.nonce = true)
    (hexp : truthyN vp.exp = true ∧ ¬ (vp.exp.getD 0 < now)) :
    ((truthyS vp.aud = true ∧ truthyS audience = false →
        assertValidResponseJWT now
          { header := some (), payload := none, verPayload := some vp, audience := audience } =
          .error .badParams) ∧
     (truthyS vp.aud = false ∧ truthyS audience = true →
        assertValidResponseJWT now
          { header := some (), payload := none, verPayload := some vp, audience := audience } =
          .error .badParams) ∧
     (truthyS vp.aud = true ∧ truthyS audience = true ∧ audience ≠ vp.aud →
        assertValidResponseJWT now
          { header := some (), payload := none, verPayload := some vp, audience := audience } =
          .error .invalidAudience) ∧
     ((truthyS vp.aud = truthyS audience) ∧ (truthyS audience = true → audience = vp.aud) →
        assertValidResponseJWT now
          { header := some (), payload := none, verPayload := some vp, audience := audience } =
          .ok ())) := by
  unfold assertValidResponseJWT assertValidResponseJWT.assertVerPayload
  obtain ⟨hexp1, hexp2⟩ := hexp
  refine ⟨?_, ?_, ?_, ?_⟩
  · rintro ⟨h1, h2⟩
    simp [hnonce, hexp1, hexp2, h1, h2]
  · rintro ⟨h1, h2⟩
    simp [hnonce, hexp1, hexp2, h1, h2]
  · rintro ⟨h1, h2, h3⟩
    simp [hnonce, hexp1, hexp2, h1, h2, h3]
  · rintro ⟨h1, h2⟩
    by_cases ha : truthyS audience = true
    · simp [hnonce, hexp1, hexp2, ha, h1.trans ha, h2 ha]
    · have ha' : truthyS audience = false := by
        revert ha
        cases truthyS audience <;> simp
      have hv' : truthyS vp.aud = false := h1.trans ha'
      simp [hnonce, hexp1, hexp2, ha', hv']

/-- Witness for the C4 theorem: both audiences present and equal passes the
check. -/
theorem audience_symmetry_witness :
    assertValidResponseJWT 5
      { header := some (), payload := none,
        verPayload := some { iss := none, aud := some "https://rp.example/cb", nonce := some "n-2", exp := some 100 },
        audience := some "https://rp.example/cb" } =
      .ok () :=
  (audience_symmetry 5
      { iss := none, aud := some "https://rp.example/cb", nonce := some "n-2", exp := some 100 }
      (some "https://rp.example/cb") (by decide) (by decide)).2.2.2 ⟨by decide, fun _ => rfl⟩

/-- Presentation location enum (PresentationLocation in the response types
used by rp/Builder.ts). -/
inductive PresentationLocationM where
  | ID_TOKEN
  | VP_TOKEN
deriving DecidableEq, Repr

/-- A presentation-exchange definition; the id field mirrors the required id
of IPresentationDefinition. -/
structure PDef where
  id : String
deriving DecidableEq, Repr

/-- A definition paired with the location it is expected in
(PresentationDefinitionWithLocation). The definition field is optional
because verifyVPs (rp/Builder.ts line 502) constructs entries whose
definition may be undefined at runtime. -/
structure PDefWithLocation where
  definition : Option PDef
  location : PresentationLocationM
deriving DecidableEq, Repr

/-- The body of a verifiable presentation, carrying an optional
presentation_submission (modelled by its id string). -/
structure PresBody where
  presentation_submission : Option String
deriving DecidableEq, Repr

/-- A verifiable-presentation payload; the presentation field is optional to
mirror the runtime truthiness checks of the source. -/
structure VPPayloadM where
  presentation : Option PresBody
deriving DecidableEq, Repr

/-- The vp_token slot of an authorization response payload: undefined, a
single presentation payload, or an array of them. -/
inductive VpToken where
  | undef
  | single (vp : VPPayloadM)
  | arr (vps : List VPPayloadM)
deriving DecidableEq, Repr

/-- External presentation-exchange capabilities consumed by the response
code: PresentationExchange.assertValidPresentationDefinitionWithLocations and
PresentationExchange.validatePayloadsAgainstDefinitions, both defined outside
the given sources. -/
structure PexCaps where
  assertDefsWithLocations : Option (List PDefWithLocation) → Except SIOPError Unit
  validatePayloadsAgainstDefinitions :
    Option (List PDefWithLocation) → List VPPayloadM → Option String → Option Unit →
      Except SIOPError Unit

/-- Emptiness test on the definitions argument as the source writes it
(rp/Builder.ts line 702): undefined, or no entry with a truthy definition. -/
def defsEmptyish (defs : Option (List PDefWithLocation)) : Bool :=
  match defs with
  | none => true
  | some l => (l.filter (fun d => d.definition.isSome)).length == 0

/-- Emptiness test on the vps argument as the source writes it (rp/Builder.ts
line 703): undefined, or an array with no entry having a truthy presentation.
A single non-array payload never counts as empty. -/
def vpsEmptyish (vps : VpToken) : Bool :=
  match vps with
  | .undef => true
  | .arr l => (l.filter (fun vp => vp.presentation.isSome)).length == 0
  | .single _ => false

/-- The presentationPayloads list the source accumulates (rp/Builder.ts lines
708-721). -/
def vpPayloadsOf (vps : VpToken) : List VPPayloadM :=
  match vps with
  | .arr l => l
  | .single vp => [vp]
  | .undef => []

/-- The presentationSubmission the source extracts from the first payload
(rp/Builder.ts lines 713-720). -/
def submissionOf (vps : VpToken) : Option String :=
  match vps with
  | .arr (vp :: _) => vp.presentation.bind (fun p => p.presentation_submission)
  | .arr [] => none
  | .single vp => vp.presentation.bind (fun p => p.presentation_submission)
  | .undef => none

/-- Embedding of assertValidVerifiablePresentations (rp/Builder.ts lines
696-737). The early return fires when both definitions and presentations are
empty-ish; otherwise the definition set is asserted, the payload list is
accumulated, and the count checks run before delegation to the matching
capability. In the source presentationPayloads is always a defined array, so
the truthiness disjunct on it at line 725 is always satisfied. -/
def assertValidVerifiablePresentations (pex : PexCaps)
    (defs : Option (List PDefWithLocation)) (vps : VpToken) (cb : Option Unit) :
    Except SIOPError Unit :=
  if defsEmptyish defs && vpsEmptyish vps then .ok ()
  else
    match pex.assertDefsWithLocations defs with
    | .error e => .error e
    | .ok _ =>
      let pl := vpPayloadsOf vps
      let sub := submissionOf vps
      let defsDefined := defs.isSome
      let defsLen := (defs.getD []).length
      if defsDefined && defsLen != 0 && pl.length == 0 then .error .authRequestExpectsVp
      else if !defsDefined || defsLen == 0 then .error .authRequestDoesntExpectVp
      else if defsLen != pl.length then .error .authRequestExpectsVp
      else pex.validatePayloadsAgainstDefinitions defs pl sub cb

/-- The number of presentations carried by a vp_token value. -/
def vpCount (vps : VpToken) : Nat :=
  match vps with
  | .undef => 0
  | .single _ => 1
  | .arr l => l.length

/-- C5: presentation count invariant of assertValidVerifiablePresentations.
For N genuine definitions (every entry carries a definition) and M genuine
presentations (every array entry carries a presentation body), with the
definition-set assertion capability succeeding: N = M = 0 succeeds for every
matching capability (so the matching capability is not consulted), and N and
M not both zero with N different from M fails with one of the two
presentation-exchange count errors of the source. -/
theorem presentation_count_invariant (pex : PexCaps)
    (defs : Option (List PDefWithLocation)) (vps : VpToken) (cb : Option Unit)
    (hdefs : ∀ d ∈ defs.getD [], d.definition.isSome)
    (hvps : ∀ l, vps = VpToken.arr l → ∀ vp ∈ l, vp.presentation.isSome)
    (hassert : pex.assertDefsWithLocations defs = .ok ()) :
    (((defs.getD []).length = 0 ∧ vpCount vps = 0) →
        assertValidVerifiablePresentations pex defs vps cb = .ok ()) ∧
    ((¬((defs.getD []).length = 0 ∧ vpCount vps = 0) ∧
        (defs.getD []).length ≠ vpCount vps) →
      ∃ e, assertValidVerifiablePresentations pex defs vps cb = .error e ∧
        (e = .authRequestExpectsVp ∨ e = .authRequestDoesntExpectVp)) := by
  have hfilter : ∀ l : List PDefWithLocation, (∀ d ∈ l, d.definition.isSome) →
      l.filter (fun d => d.definition.isSome) = l := by
    intro l hl
    apply List.filter_eq_self.mpr
    intro a ha
    exact hl a ha
  have hfilterv : ∀ l : List VPPayloadM, (∀ vp ∈ l, vp.presentation.isSome) →
      l.filter (fun vp => vp.presentation.isSome) = l := by
    intro l hl
    apply List.filter_eq_self.mpr
    intro a ha
    exact hl a ha
  constructor
  · rintro ⟨hN, hM⟩
    unfold assertValidVerifiablePresentations
    have hde : defsEmptyish defs = true := by
      cases defs with
      | none => rfl
      | some l =>
        simp only [defsEmptyish]
        rw [hfilter l (by simpa using hdefs)]
        simpa using hN
    have hve : vpsEmptyish vps = true := by
      cases vps with
      | undef => rfl
      | single vp => simp [vpCount] at hM
      | arr l =>
        simp only [vpsEmptyish]
        rw [hfilterv l (hvps l rfl)]
        simp only [vpCount] at hM
        simpa using hM
    simp [hde, hve]
  · rintro ⟨hnz, hne⟩
    unfold assertValidVerifiablePresentations
    have hplen : (vpPayloadsOf vps).length = vpCount vps := by
      cases vps <;> simp [vpPayloadsOf, vpCount]
    by_cases hN0 : (defs.getD []).length = 0
    · -- no definitions, at least one presentation
      have hM1 : vpCount vps ≠ 0 := by
        intro h
        exact hnz ⟨hN0, h⟩
      have hve : vpsEmptyish vps = false := by
        cases vps with
        | undef => simp [vpCount] at hM1
        | single vp => rfl
        | arr l =>
          simp only [vpsEmptyish]
          rw [hfilterv l (hvps l rfl)]
          simp only [vpCount] at hM1
          simpa using hM1
      have hcond : (defsEmptyish defs && vpsEmptyish vps) = false := by
        rw [hve]
        simp
      rw [if_neg (by simp [hcond, hve]), hassert]
      have hdd : (defs.isSome && ((defs.getD []).length != 0) &&
          ((vpPayloadsOf vps).length == 0)) = false := by
        simp [hN0]
      rw [if_neg (by simp_all), if_pos (by simp [hN0])]
      exact ⟨_, rfl, Or.inr rfl⟩
    · -- at least one definition
      have hde : defsEmptyish defs = false := by
        cases defs with
        | none => simp at hN0
        | some l =>
          simp only [defsEmptyish]
          rw [hfilter l (by simpa using hdefs)]
          simpa using hN0
      rw [if_neg (by simp [hde]), hassert]
      have hdsome : defs.isSome = true := by
        cases defs with
        | none => simp at hN0
        | some l => rfl
      by_cases hM0 : vpCount vps = 0
      · rw [if_pos (by simp [hdsome, hN0, hplen, hM0])]
        exact ⟨_, rfl, Or.inl rfl⟩
      · rw [if_neg (by simp [hplen, hM0]), if_neg (by simp [hdsome, hN0]),
           if_pos (by simp [hplen]; omega)]
        exact ⟨_, rfl, Or.inl rfl⟩

/-- Witness for the C5 theorem: one definition and no presentations fails
with a presentation-exchange count error, and the zero-zero case succeeds. -/
theorem presentation_count_invariant_witness :
    (∃ e, assertValidVerifiablePresentations
        { assertDefsWithLocations := fun _ => .ok (),
          validatePayloadsAgainstDefinitions := fun _ _ _ _ => .ok () }
        (some [{ definition := some { id := "d-1" }, location := .VP_TOKEN }])
        VpToken.undef none = .error e ∧
        (e = .authRequestExpectsVp ∨ e = .authRequestDoesntExpectVp)) ∧
    assertValidVerifiablePresentations
        { assertDefsWithLocations := fun _ => .ok (),
          validatePayloadsAgainstDefinitions := fun _ _ _ _ => .error (.capability "never") }
        none VpToken.undef none = .ok () :=
  ⟨(presentation_count_invariant
      { assertDefsWithLocations := fun _ => .ok (),
        validatePayloadsAgainstDefinitions := fun _ _ _ _ => .ok () }
      (some [{ definition := some { id := "d-1" }, location := .VP_TOKEN }])
      VpToken.undef none (by decide) (by intro l h; cases h) rfl).2
      (by constructor <;> simp [vpCount]),
   (presentation_count_invariant
      { assertDefsWithLocations := fun _ => .ok (),
        validatePayloadsAgainstDefinitions := fun _ _ _ _ => .error (.capability "never") }
      none VpToken.undef none (by intro d h; cases h) (by intro l h; cases h) rfl).1
      (by constructor <;> rfl)⟩

/-- Modelled from the spec: the tri-state linked-domain policy
(CheckLinkedDomain, defined in a types module that is not among the given
sources; its members are non-empty string values, hence truthy). -/
inductive CheckLinkedDomain where
  | NEVER
  | IF_PRESENT
  | ALWAYS
deriving DecidableEq, Repr

/-- Modelled from the spec: the tri-state revocation policy
(RevocationVerification, defined in a types module that is not among the
given sources; its members are non-empty string values, hence truthy). -/
inductive RevocationVerification where
  | NEVER
  | IF_PRESENT
  | ALWAYS
deriving DecidableEq, Repr

/-- Stages of the response verification pipeline, recorded in order as each
stage is entered. The linked-domain event carries the issuer DID and the
policy mode actually passed to the linked-domain capability. -/
inductive Stage where
  | parsed
  | issuerChecked
  | signatureVerified
  | linkedDomainChecked (did : String) (mode : CheckLinkedDomain)
  | claimsValidated
  | callbackChecked
  | pexValidated
  | revocationChecked
deriving DecidableEq, Repr

/-- Result of the signature-verification capability: the verified claims plus
opaque signer and DID-resolution data. -/
structure VerifiedJWTM where
  payload : ResponseClaims
  signer : String
  didResolutionResult : String
deriving DecidableEq, Repr

/-- External capabilities consumed by AuthenticationResponse.verifyJWT:
parseJWT, verifyDidJWT, getIssuerDidFromPayload and
validateLinkedDomainWithDid, all defined outside the given sources. The
wellknown-DID verify callback is folded into the linked-domain capability. -/
structure VerifyCaps where
  parseJWT : String → Except SIOPError (Unit × ResponseClaims)
  verifyDidJWT : String → Option String → Except SIOPError VerifiedJWTM
  getIssuerDidFromPayload : ResponseClaims → Except SIOPError String
  validateLinkedDomainWithDid : String → CheckLinkedDomain → Except SIOPError Unit

/-- Revocation options of the verification configuration
(revocationOpts with its mode and callback; the callback is modelled by a
presence marker handed to the revocation capability). -/
structure RevocationOpts where
  revocationVerification : Option RevocationVerification
  revocationVerificationCallback : Option Unit

/-- The verification member of the verify options (internal or external
verification record with its policies). -/
structure VerificationM where
  checkLinkedDomain : Option CheckLinkedDomain
  revocationOpts : Option RevocationOpts

/-- The vpToken member of the claims of the verify options, carrying the
configured presentation definition. -/
structure VpTokenClaimOpts where
  presentationDefinition : Option PDef

/-- The claims member of the verify options. -/
structure ClaimsOptsM where
  vpToken : Option VpTokenClaimOpts

/-- Embedding of VerifyAuthenticationResponseOpts as consumed by verifyJWT
and verifyVPs. -/
structure VerifyRespOpts where
  verification : Option VerificationM
  audience : Option String
  presentationVerificationCallback : Option Unit
  claims : Option ClaimsOptsM

/-- The successfully verified response record returned by verifyJWT. -/
structure VerifiedRespM where
  signer : String
  didResolutionResult : String
  issuer : String
  payload : ResponseClaims
deriving DecidableEq, Repr

/-- Embedding of assertValidVerifyOpts (rp/Builder.ts lines 690-694): the
verification member must be present (a present record passes the
internal-or-external shape test, whose recognizers live outside the given
sources). -/
def assertValidVerifyOpts (opts : VerifyRespOpts) : Except SIOPError Unit :=
  match opts.verification with
  | none => .error .verifyBadParams
  | some _ => .ok ()

/-- The linked-domain mode verifyJWT passes to the capability, from the
branch at rp/Builder.ts lines 477-481: a configured mode other than NEVER is
used as-is, an unset mode defaults to IF_PRESENT, and NEVER selects no call
at all. -/
def linkedDomainModeUsed (cld : Option CheckLinkedDomain) : Option CheckLinkedDomain :=
  match cld with
  | some m => if m = CheckLinkedDomain.NEVER then none else some m
  | none => some CheckLinkedDomain.IF_PRESENT

/-- Embedding of AuthenticationResponse.verifyJWT (rp/Builder.ts lines
463-499), returning the list of stages entered alongside the result. Stage
order follows the source: parse, issuer check on the parsed payload,
signature verification, linked-domain policy, claims validation on the
verified payload, and finally the presentation-verification-callback
presence check. -/
def verifyJWT (caps : VerifyCaps) (now : Nat) (jwt : String) (opts : VerifyRespOpts) :
    List Stage × Except SIOPError VerifiedRespM :=
  if jwt.isEmpty then ([], .error .noJwt)
  else
    match assertValidVerifyOpts opts with
    | .error e => ([], .error e)
    | .ok _ =>
      match caps.parseJWT jwt with
      | .error e => ([], .error e)
      | .ok (hdr, payload) =>
        match assertValidResponseJWT now
            { header := some hdr, payload := some payload, verPayload := none, audience := none } with
        | .error e => ([.parsed, .issuerChecked], .error e)
        | .ok _ =>
          match caps.verifyDidJWT jwt opts.audience with
          | .error e => ([.parsed, .issuerChecked], .error e)
          | .ok verified =>
            match caps.getIssuerDidFromPayload payload with
            | .error e => ([.parsed, .issuerChecked, .signatureVerified], .error e)
            | .ok issuerDid =>
              let cld := match opts.verification with
                | some v => v.checkLinkedDomain
                | none => none
              let ld : List Stage × Except SIOPError Unit :=
                match linkedDomainModeUsed cld with
                | some m => ([.linkedDomainChecked issuerDid m],
                             caps.validateLinkedDomainWithDid issuerDid m)
                | none => ([], .ok ())
              let tr0 : List Stage := [.parsed, .issuerChecked, .signatureVerified] ++ ld.1
              match ld.2 with
              | .error e => (tr0, .error e)
              | .ok _ =>
                match assertValidResponseJWT now
                    { header := some hdr, payload := none,
                      verPayload := some verified.payload, audience := opts.audience } with
                | .error e => (tr0 ++ [.claimsValidated], .error e)
                | .ok _ =>
                  if opts.presentationVerificationCallback.isNone then
                    (tr0 ++ [.claimsValidated, .callbackChecked],
                     .error .vpVerificationFunctionMissing)
                  else
                    (tr0 ++ [.claimsValidated, .callbackChecked],
                     .ok { signer := verified.signer,
                           didResolutionResult := verified.didResolutionResult,
                           issuer := issuerDid, payload := verified.payload })

/-- The revocation capability consumed by verifyVPs (the verifyRevocation
function, defined outside the given sources): it receives the presentation
(possibly undefined), the configured callback marker and the policy mode. -/
structure RevCaps where
  verifyRevocation : Option VPPayloadM → Option Unit → Option RevocationVerification →
    Except SIOPError Unit

/-- The authorization response payload as consumed by verifyVPs: only its
vp_token member is read. -/
structure AuthRespPayloadM where
  vp_token : VpToken

/-- The revocation mode verifyVPs computes (rp/Builder.ts lines 507-509):
the configured mode when revocationOpts is present (possibly undefined),
else the IF_PRESENT default. -/
def revocationModeOf (v : VerificationM) : Option RevocationVerification :=
  match v.revocationOpts with
  | some ro => ro.revocationVerification
  | none => some RevocationVerification.IF_PRESENT

/-- Embedding of AuthenticationResponse.verifyVPs (rp/Builder.ts lines
500-519). In the array branch the source iterates with Array.forEach over an
async arrow function; the promises created by that callback are discarded by
forEach, so a rejected revocation check does not propagate to the caller and
the function resolves successfully. The single-presentation branch awaits its
check directly, so there a failure propagates. Accessing
verification.revocationOpts.revocationVerificationCallback with
revocationOpts undefined raises a TypeError; in the array branch that access
happens inside the discarded async callback. -/
def verifyVPs (pex : PexCaps) (rev : RevCaps)
    (payload : AuthRespPayloadM) (opts : VerifyRespOpts) :
    List Stage × Except SIOPError Unit :=
  match opts.claims with
  | none => ([.pexValidated], .error (.typeError "claims"))
  | some claims =>
    let defs : List PDefWithLocation :=
      [{ definition := claims.vpToken.bind (fun v => v.presentationDefinition),
         location := PresentationLocationM.VP_TOKEN }]
    match assertValidVerifiablePresentations pex (some defs) payload.vp_token
        opts.presentationVerificationCallback with
    | .error e => ([.pexValidated], .error e)
    | .ok _ =>
      match opts.verification with
      | none => ([.pexValidated], .error (.typeError "verification"))
      | some v =>
        if revocationModeOf v ≠ some RevocationVerification.NEVER then
          match payload.vp_token with
          | .arr _ =>
            ([.pexValidated, .revocationChecked], .ok ())
          | .single vp =>
            ([.pexValidated, .revocationChecked],
             match v.revocationOpts with
             | none => .error (.typeError "revocationOpts")
             | some ro =>
               rev.verifyRevocation (some vp) ro.revocationVerificationCallback
                 (revocationModeOf v))
          | .undef =>
            ([.pexValidated, .revocationChecked],
             match v.revocationOpts with
             | none => .error (.typeError "revocationOpts")
             | some ro =>
               rev.verifyRevocation none ro.revocationVerificationCallback
                 (revocationModeOf v))
        else ([.pexValidated], .ok ())

/-- The outcomes of the promises created by the Array.forEach callback in the
array branch of verifyVPs: one revocation-check result per presentation in
the vp_token array. verifyVPs discards these outcomes; this function makes
them observable. -/
def verifyVPsDetachedRevocationResults (rev : RevCaps)
    (payload : AuthRespPayloadM) (opts : VerifyRespOpts) :
    List (Except SIOPError Unit) :=
  match opts.claims, opts.verification with
  | some _, some v =>
    if revocationModeOf v ≠ some RevocationVerification.NEVER then
      match payload.vp_token with
      | .arr l =>
        l.map (fun p =>
          match v.revocationOpts with
          | none => .error (.typeError "revocationOpts")
          | some ro =>
            rev.verifyRevocation (some p) ro.revocationVerificationCallback
              (revocationModeOf v))
      | _ => []
    else []
  | _, _ => []

/-- Modelled from the spec: the verifier state machine runs token
verification (verifyJWT) and then presentation and revocation validation
(verifyVPs), each stage entered only if the previous succeeded; a stage
failure is terminal. The two functions are separate static methods in the
source; this composition is their sequential use described by the spec. -/
def verifyResponsePipeline (caps : VerifyCaps) (pex : PexCaps) (rev : RevCaps)
    (now : Nat) (jwt : String) (opts : VerifyRespOpts) (payload : AuthRespPayloadM) :
    List Stage × Except SIOPError VerifiedRespM :=
  let r := verifyJWT caps now jwt opts
  match r.2 with
  | .error e => (r.1, .error e)
  | .ok vr =>
    let r2 := verifyVPs pex rev payload opts
    (r.1 ++ r2.1,
     match r2.2 with
     | .error e => .error e
     | .ok _ => .ok vr)

/-- The issuer check on a parsed payload passes exactly when iss equals the
fixed self-issued identifier; with no verPayload the remaining checks are
skipped. Helper shared by the verifier theorems. -/
theorem assertValidResponseJWT_payload_ok (now : Nat) (hdr : Unit) (p : ResponseClaims)
    (h : p.iss = some SELF_ISSUED_V2) :
    assertValidResponseJWT now
      { header := some hdr, payload := some p, verPayload := none, audience := none } =
      .ok () := by
  unfold assertValidResponseJWT assertValidResponseJWT.assertVerPayload
  simp [h]

/-- The issuer check on a parsed payload whose iss differs from the fixed
self-issued identifier fails with NO_SELFISSUED_ISS. Helper shared by the
verifier theorems. -/
theorem assertValidResponseJWT_payload_bad_iss (now : Nat) (hdr : Unit) (p : ResponseClaims)
    (h : p.iss ≠ some SELF_ISSUED_V2) :
    assertValidResponseJWT now
      { header := some hdr, payload := some p, verPayload := none, audience := none } =
      .error .noSelfissuedIss := by
  unfold assertValidResponseJWT
  simp [h]

/-- C7: the linked-domain policy branch of verifyJWT (rp/Builder.ts lines
477-481). With the policy set to NEVER the linked-domain check is never
entered on any execution path; with the policy unset, every execution that
reaches the policy branch invokes linked-domain validation of the issuer DID
with the IF_PRESENT default mode. -/
theorem linked_domain_policy (caps : VerifyCaps) (now : Nat) (jwt : String)
    (opts : VerifyRespOpts) (v : VerificationM)
    (hver : opts.verification = some v) :
    (v.checkLinkedDomain = some CheckLinkedDomain.NEVER →
      ∀ d m, Stage.linkedDomainChecked d m ∉ (verifyJWT caps now jwt opts).1) ∧
    (v.checkLinkedDomain = none →
      ∀ hdr p verified issuerDid,
        jwt.isEmpty = false →
        caps.parseJWT jwt = .ok (hdr, p) →
        p.iss = some SELF_ISSUED_V2 →
        caps.verifyDidJWT jwt opts.audience = .ok verified →
        caps.getIssuerDidFromPayload p = .ok issuerDid →
        Stage.linkedDomainChecked issuerDid CheckLinkedDomain.IF_PRESENT ∈
          (verifyJWT caps now jwt opts).1) := by
  constructor
  · intro hcld d m
    unfold verifyJWT
    simp only [assertValidVerifyOpts, hver, hcld, linkedDomainModeUsed, reduceIte]
    split
    · simp
    · split
      · simp
      · split
        · simp
        · split
          · simp
          · split
            · simp
            · split
              · simp
              · split <;> simp
  · intro hcld hdr p verified issuerDid hemp hparse hiss hsig hdid
    unfold verifyJWT
    simp only [assertValidVerifyOpts, hver, hcld, linkedDomainModeUsed, hemp,
      Bool.false_eq_true, if_false, hparse,
      assertValidResponseJWT_payload_ok now hdr p hiss, hsig, hdid]
    split
    · simp
    · split
      · simp
      · split <;> simp

/-- Capabilities for concrete witnesses: a happy-path environment whose
parse, signature and DID-resolution capabilities succeed, with a payload
carrying the self-issued identifier. -/
def witClaims : ResponseClaims :=
  { iss := some SELF_ISSUED_V2, aud := none, nonce := some "n-3", exp := some 2000 }

/-- Happy-path verification capabilities used by the witnesses. -/
def witCaps : VerifyCaps :=
  { parseJWT := fun _ => .ok ((), witClaims),
    verifyDidJWT := fun _ _ =>
      .ok { payload := witClaims, signer := "signer-key", didResolutionResult := "did-doc" },
    getIssuerDidFromPayload := fun _ => .ok "did:example:holder",
    validateLinkedDomainWithDid := fun _ _ => .ok () }

/-- Verify options with the linked-domain policy unset. -/
def witOptsUnsetLd : VerifyRespOpts :=
  { verification := some { checkLinkedDomain := none, revocationOpts := none },
    audience := none, presentationVerificationCallback := some (), claims := none }

/-- Verify options with the linked-domain policy set to NEVER. -/
def witOptsNeverLd : VerifyRespOpts :=
  { verification := some { checkLinkedDomain := some CheckLinkedDomain.NEVER, revocationOpts := none },
    audience := none, presentationVerificationCallback := some (), claims := none }

/-- Witness for the C7 theorem: with the policy unset the trace records a
linked-domain check with IF_PRESENT, and with the policy NEVER no
linked-domain event ever appears. -/
theorem linked_domain_policy_witness :
    Stage.linkedDomainChecked "did:example:holder" CheckLinkedDomain.IF_PRESENT ∈
      (verifyJWT witCaps 100 "eyJ0" witOptsUnsetLd).1 ∧
    (∀ d m, Stage.linkedDomainChecked d m ∉ (verifyJWT witCaps 100 "eyJ0" witOptsNeverLd).1) :=
  ⟨(linked_domain_policy witCaps 100 "eyJ0" witOptsUnsetLd
      { checkLinkedDomain := none, revocationOpts := none } rfl).2 rfl ()
      witClaims { payload := witClaims, signer := "signer-key", didResolutionResult := "did-doc" }
      "did:example:holder" rfl rfl rfl rfl rfl,
   fun d m => (linked_domain_policy witCaps 100 "eyJ0" witOptsNeverLd
      { checkLinkedDomain := some CheckLinkedDomain.NEVER, revocationOpts := none } rfl).1 rfl d m⟩

/-- C9: verifyJWT with no configured presentation-verification callback can
never return a verified response (the callback presence check at
rp/Builder.ts lines 485-487 is on every successful path), and on an
execution where all earlier stages succeed the reported error is precisely
the missing-callback error. -/
theorem presentation_callback_required (caps : VerifyCaps) (now : Nat) (jwt : String)
    (opts : VerifyRespOpts)
    (hcb : opts.presentationVerificationCallback = none) :
    (∀ r, (verifyJWT caps now jwt opts).2 ≠ .ok r) ∧
    (∀ (v : VerificationM) (hdr : Unit) (p : ResponseClaims) (verified : VerifiedJWTM)
        (issuerDid : String),
      opts.verification = some v →
      jwt.isEmpty = false →
      caps.parseJWT jwt = .ok (hdr, p) →
      p.iss = some SELF_ISSUED_V2 →
      caps.verifyDidJWT jwt opts.audience = .ok verified →
      caps.getIssuerDidFromPayload p = .ok issuerDid →
      (∀ d m, caps.validateLinkedDomainWithDid d m = .ok ()) →
      assertValidResponseJWT now
        { header := some hdr, payload := none, verPayload := some verified.payload,
          audience := opts.audience } = .ok () →
      (verifyJWT caps now jwt opts).2 = .error .vpVerificationFunctionMissing) := by
  constructor
  · intro r h
    unfold verifyJWT at h
    simp only [hcb, Option.isNone_none, if_true] at h
    repeat' split at h
    all_goals simp_all
  · intro v hdr p verified issuerDid hver hemp hparse hiss hsig hdid hld hassert2
    unfold verifyJWT
    simp only [assertValidVerifyOpts, hver, hemp, Bool.false_eq_true, if_false, hparse,
      assertValidResponseJWT_payload_ok now hdr p hiss, hsig, hdid, hassert2, hcb,
      Option.isNone_none, if_true]
    cases hmode : linkedDomainModeUsed v.checkLinkedDomain with
    | none => simp [hmode]
    | some m => simp [hmode, hld]

/-- Verify options with no presentation-verification callback configured. -/
def witOptsNoCb : VerifyRespOpts :=
  { verification := some { checkLinkedDomain := none, revocationOpts := none },
    audience := none, presentationVerificationCallback := none, claims := none }

/-- Witness for the C9 theorem on an otherwise fully valid verification. -/
theorem presentation_callback_required_witness :
    (verifyJWT witCaps 100 "eyJ0" witOptsNoCb).2 = .error .vpVerificationFunctionMissing :=
  (presentation_callback_required witCaps 100 "eyJ0" witOptsNoCb rfl).2
    { checkLinkedDomain := none, revocationOpts := none } () witClaims
    { payload := witClaims, signer := "signer-key", didResolutionResult := "did-doc" }
    "did:example:holder" rfl rfl rfl rfl rfl rfl (fun _ _ => rfl) rfl

/-- Presentation-exchange capabilities that accept everything; used by
concrete pipeline evaluations. -/
def pexOkCaps : PexCaps :=
  { assertDefsWithLocations := fun _ => .ok (),
    validatePayloadsAgainstDefinitions := fun _ _ _ _ => .ok () }

/-- A revocation capability that rejects every presentation. -/
def revFailCaps : RevCaps :=
  { verifyRevocation := fun _ _ _ => .error (.capability "revoked") }

/-- A revocation capability that accepts every presentation. -/
def revOkCaps : RevCaps :=
  { verifyRevocation := fun _ _ _ => .ok () }

/-- Parsed claims carrying an issuer that is not the self-issued
identifier. -/
def badIssClaims : ResponseClaims :=
  { iss := some "did:example:attacker", aud := none, nonce := some "n-4", exp := some 2000 }

/-- Capabilities whose signature verification always fails, while parsing
yields the bad-issuer claims: under the claimed stage order the issuer check
could never be entered in this environment. -/
def sigFailCaps : VerifyCaps :=
  { parseJWT := fun _ => .ok ((), badIssClaims),
    verifyDidJWT := fun _ _ => .error (.capability "signature-always-fails"),
    getIssuerDidFromPayload := fun _ => .ok "did:example:attacker",
    validateLinkedDomainWithDid := fun _ _ => .ok () }

/-- Counterexample to C3 as stated: in an environment whose signature
capability never succeeds, a token with a non-self-issued iss still fails
with the issuer-mismatch error, and the trace records the issuer check with
no signature-verified event before (or after) it. The issuer check is
therefore not entered only after signature verification: in the source it
runs right after parsing (rp/Builder.ts line 470), before verifyDidJWT
(line 472). -/
theorem issuer_check_not_after_signature_counterexample :
    verifyResponsePipeline sigFailCaps pexOkCaps revOkCaps 100 "eyJ0" witOptsUnsetLd
        { vp_token := .undef } =
      ([Stage.parsed, Stage.issuerChecked], .error .noSelfissuedIss) ∧
    Stage.issuerChecked ∈
      (verifyResponsePipeline sigFailCaps pexOkCaps revOkCaps 100 "eyJ0" witOptsUnsetLd
        { vp_token := .undef }).1 ∧
    Stage.signatureVerified ∉
      (verifyResponsePipeline sigFailCaps pexOkCaps revOkCaps 100 "eyJ0" witOptsUnsetLd
        { vp_token := .undef }).1 := by
  refine ⟨rfl, ?_, ?_⟩ <;> decide

/-- C3 amended: the issuer-acceptance check runs directly after parsing and
before signature verification; a token whose iss is not the fixed
self-issued identifier fails with the issuer-mismatch error before the
signature stage and before any presentation-exchange or revocation stage
executes. -/
theorem issuer_mismatch_rejected_before_signature_and_pex (caps : VerifyCaps)
    (pex : PexCaps) (rev : RevCaps) (now : Nat) (jwt : String) (opts : VerifyRespOpts)
    (payload : AuthRespPayloadM) (v : VerificationM) (hdr : Unit) (p : ResponseClaims)
    (hver : opts.verification = some v)
    (hemp : jwt.isEmpty = false)
    (hparse : caps.parseJWT jwt = .ok (hdr, p))
    (hiss : p.iss ≠ some SELF_ISSUED_V2) :
    verifyResponsePipeline caps pex rev now jwt opts payload =
      ([Stage.parsed, Stage.issuerChecked], .error .noSelfissuedIss) ∧
    Stage.signatureVerified ∉
      (verifyResponsePipeline caps pex rev now jwt opts payload).1 ∧
    Stage.pexValidated ∉
      (verifyResponsePipeline caps pex rev now jwt opts payload).1 ∧
    Stage.revocationChecked ∉
      (verifyResponsePipeline caps pex rev now jwt opts payload).1 := by
  have h1 : verifyResponsePipeline caps pex rev now jwt opts payload =
      ([Stage.parsed, Stage.issuerChecked], .error .noSelfissuedIss) := by
    unfold verifyResponsePipeline verifyJWT
    simp [assertValidVerifyOpts, hver, hemp, hparse,
      assertValidResponseJWT_payload_bad_iss now hdr p hiss]
  refine ⟨h1, ?_, ?_, ?_⟩ <;> simp [h1]

/-- Witness for the amended C3 theorem at the concrete counterexample
environment. -/
theorem issuer_mismatch_rejected_before_signature_and_pex_witness :
    verifyResponsePipeline sigFailCaps pexOkCaps revOkCaps 100 "eyJ1" witOptsUnsetLd
        { vp_token := .undef } =
      ([Stage.parsed, Stage.issuerChecked], .error .noSelfissuedIss) :=
  (issuer_mismatch_rejected_before_signature_and_pex sigFailCaps pexOkCaps revOkCaps 100
    "eyJ1" witOptsUnsetLd { vp_token := .undef }
    { checkLinkedDomain := none, revocationOpts := none } () badIssClaims
    rfl rfl rfl (by decide)).1

/-- Verify options configuring one presentation definition and an ALWAYS
revocation policy with its callback marker present. -/
def c1Opts : VerifyRespOpts :=
  { verification := some
      { checkLinkedDomain := none,
        revocationOpts := some
          { revocationVerification := some RevocationVerification.ALWAYS,
            revocationVerificationCallback := some () } },
    audience := none, presentationVerificationCallback := some (),
    claims := some { vpToken := some { presentationDefinition := some { id := "d-1" } } } }

/-- A response payload whose vp_token is an array of one presentation. -/
def c1Payload : AuthRespPayloadM :=
  { vp_token := .arr [{ presentation := some { presentation_submission := none } }] }

/-- C1 fails on the code: with an array-valued vp_token and a non-NEVER
revocation policy, the per-item revocation checks are issued (the detached
results show the check rejecting the only presentation) yet verifyVPs
resolves successfully, because Array.forEach discards the promises its async
callback creates (rp/Builder.ts lines 511-514). The single-presentation
branch of the same function awaits its check, so the non-propagation is
limited to arrays and contradicts the documented all-must-pass intent. -/
theorem array_revocation_failure_not_propagated :
    verifyVPs pexOkCaps revFailCaps c1Payload c1Opts =
      ([Stage.pexValidated, Stage.revocationChecked], .ok ()) ∧
    verifyVPsDetachedRevocationResults revFailCaps c1Payload c1Opts =
      [.error (.capability "revoked")] :=
  ⟨rfl, rfl⟩

/-- Modelled from the spec: the subject-syntax value for DID support
(SubjectSyntaxTypesSupportedValues.DID, defined in a types module that is
not among the given sources). -/
def DID_VALUE : String := "did"

/-- Modelled from the spec: the subject-syntax value advertising JWK
thumbprint support (SubjectSyntaxTypesSupportedValues.JWK_THUMBPRINT,
defined in a types module that is not among the given sources). -/
def JWK_THUMBPRINT_VALUE : String := "urn:ietf:params:oauth:jwk-thumbprint"

/-- String containment, standing for the JavaScript String.includes used by
the subject-syntax filter. -/
def strContainsSub (s pat : String) : Bool :=
  decide (pat.toList <:+: s.toList)

/-- Modelled from the spec: getState derives the response state from the
echoed request state (the function lives outside the given sources). -/
def getState (requestState : Option String) : String :=
  match requestState with
  | some s => s
  | none => "generated-state"

/-- Modelled from the spec: getNonce derives a nonce deterministically from
the state (the function lives outside the given sources). -/
def getNonce (state : String) : String :=
  String.append "nonce-" state

/-- The duck-typed signature material variants of the response options:
internal (raw key, DID, optional kid), external, supplied, or the NoSignature
shape (present but recognized by none of the three type guards). -/
inductive SigType where
  | internal (hexPrivateKey : String) (did : String) (kid : Option String)
  | external
  | supplied
  | noSig
deriving DecidableEq, Repr

/-- An element of the vp array of the response options: a structured
presentation-with-location entry, or a raw string as duck typing permits. -/
inductive VpEntry where
  | rawStr (s : String)
  | entry (location : PresentationLocationM)
deriving DecidableEq, Repr

/-- Embedding of AuthenticationResponseOpts as consumed by
createSIOPIDToken. -/
structure ResponseOptsM where
  signatureType : Option SigType
  did : Option String
  state : Option String
  nonce : Option String
  expiresIn : Option Nat
  vp : Option (List VpEntry)
deriving DecidableEq, Repr

/-- Registration metadata of the verified request payload. -/
structure RegistrationM where
  subjectSyntaxTypesSupported : Option (List String)
deriving DecidableEq, Repr

/-- Payload of the verified authorization request read by
createSIOPIDToken. -/
structure RequestPayloadM where
  registration : Option RegistrationM
  state : Option String
  nonce : Option String
  redirect_uri : Option String
deriving DecidableEq, Repr

/-- The verified authorization request handed to the response builder. -/
structure VerifiedAuthReq where
  jwt : Option String
  payload : RequestPayloadM
  presentationDefinitions : Option (List PDefWithLocation)
deriving DecidableEq, Repr

/-- A public JWK, modelled by its kid. -/
structure JWKM where
  kid : String
deriving DecidableEq, Repr

/-- Format tag of a descriptor-map entry. -/
inductive VPTypeFormat where
  | JWT_VP
  | LDP_VP
deriving DecidableEq, Repr

/-- The presentation submission embedded in the id token under _vp_token. -/
structure SubmissionM where
  id : String
  definition_id : Option String
  descriptor_format : VPTypeFormat
  descriptor_path : String
deriving DecidableEq, Repr

/-- The IdToken record built by createSIOPIDToken. -/
structure IdTokenM where
  iss : String
  aud : Option String
  iat : Nat
  exp : Nat
  sub : Option String
  auth_time : Nat
  nonce : String
  presentation_submission : SubmissionM
  sub_jwk : Option JWKM
deriving DecidableEq, Repr

/-- External key-material capabilities consumed by createThumbprintAndJWK
(getThumbprint and getPublicJWKFromHexPrivateKey, defined outside the given
sources). -/
structure BuildCaps where
  getThumbprint : String → Option String → Except SIOPError String
  getPublicJWKFromHexPrivateKey : String → String → Option String → Except SIOPError JWKM

/-- Embedding of assertValidResponseOpts (rp/Builder.ts lines 682-688): the
options must carry a truthy signatureType and did, and the signatureType must
be one of the internal, external or supplied shapes. -/
def assertValidResponseOpts (o : ResponseOptsM) : Except SIOPError Unit :=
  if o.signatureType.isNone || !truthyS o.did then .error .badParams
  else
    match o.signatureType with
    | some SigType.noSig => .error .signatureObjectTypeNotSet
    | some _ => .ok ()
    | none => .error .badParams

/-- Embedding of createThumbprintAndJWK (rp/Builder.ts lines 549-566): for an
internal signature the thumbprint and public JWK are derived from the key
material; for a supplied signature both stay uninitialized; otherwise the
signature-object-type error is raised. -/
def createThumbprintAndJWK (bc : BuildCaps) (resOpts : ResponseOptsM) :
    Except SIOPError (Option String × Option JWKM) :=
  match resOpts.signatureType with
  | some (SigType.internal hexPrivateKey did kid) =>
    match bc.getThumbprint hexPrivateKey resOpts.did with
    | .error e => .error e
    | .ok tp =>
      match bc.getPublicJWKFromHexPrivateKey hexPrivateKey
          (jsOrS kid (String.append did "#key-1")) resOpts.did with
      | .error e => .error e
      | .ok jwk => .ok (some tp, some jwk)
  | some SigType.supplied => .ok (none, none)
  | _ => .error .signatureObjectTypeNotSet

/-- Embedding of createSIOPIDToken (rp/Builder.ts lines 596-635). The
parameters now and uuid stand for Date.now()/1000 and the generated
submission id. Reading subject_syntax_types_supported through the optional
chain yields none when the registration or the list is absent, and the
indexOf call on that undefined value at line 629 then raises a TypeError;
likewise the definition.id access at line 618 raises a TypeError when the
first definition entry carries no definition. -/
def createSIOPIDToken (bc : BuildCaps) (now : Nat) (uuid : String)
    (verifiedJwt : VerifiedAuthReq) (resOpts : ResponseOptsM) : Except SIOPError IdTokenM :=
  match assertValidResponseOpts resOpts with
  | .error e => .error e
  | .ok _ =>
    if !truthyS verifiedJwt.jwt then .error .verifyBadParams
    else
      let supportedDidMethods : Option (List String) :=
        match verifiedJwt.payload.registration with
        | none => none
        | some r =>
          match r.subjectSyntaxTypesSupported with
          | none => none
          | some l => some (l.filter (fun sst => strContainsSub sst DID_VALUE))
      let state := jsOrS resOpts.state (getState verifiedJwt.payload.state)
      let nonce := jsOrS verifiedJwt.payload.nonce (jsOrS resOpts.nonce (getNonce state))
      match (match verifiedJwt.presentationDefinitions with
             | none => Except.error (SIOPError.typeError "presentationDefinitions")
             | some [] => Except.ok (none : Option String)
             | some (d :: _) =>
               match d.definition with
               | none => Except.error (SIOPError.typeError "definition")
               | some pd => Except.ok (if pd.id.isEmpty then none else some pd.id)) with
      | .error e => .error e
      | .ok definitionId =>
        let fmt : VPTypeFormat :=
          match resOpts.vp with
          | some (VpEntry.rawStr _ :: _) => VPTypeFormat.JWT_VP
          | _ => VPTypeFormat.LDP_VP
        let base : IdTokenM :=
          { iss := SELF_ISSUED_V2, aud := verifiedJwt.payload.redirect_uri,
            iat := now, exp := now + natOr resOpts.expiresIn 600,
            sub := resOpts.did, auth_time := now, nonce := nonce,
            presentation_submission :=
              { id := uuid, definition_id := definitionId,
                descriptor_format := fmt, descriptor_path := "$" },
            sub_jwk := none }
        match supportedDidMethods with
        | none => .error (.typeError "supportedDidMethods")
        | some ms =>
          if ms.contains JWK_THUMBPRINT_VALUE && !truthyS resOpts.did then
            match createThumbprintAndJWK bc resOpts with
            | .error e => .error e
            | .ok tj => .ok { base with sub := tj.1, sub_jwk := tj.2 }
          else .ok base

/-- Concrete key-material capabilities for evaluations. -/
def buildCapsOk : BuildCaps :=
  { getThumbprint := fun _ _ => .ok "thumbprint-1",
    getPublicJWKFromHexPrivateKey := fun _ _ _ => .ok { kid := "kid-1" } }

/-- A verified request whose registration advertises JWK-thumbprint subject
syntax support. -/
def c2Request : VerifiedAuthReq :=
  { jwt := some "eyJr",
    payload :=
      { registration := some { subjectSyntaxTypesSupported := some [JWK_THUMBPRINT_VALUE] },
        state := some "st-1", nonce := some "rn-1",
        redirect_uri := some "https://rp.example/cb" },
    presentationDefinitions := some [] }

/-- Response options with valid internal signature material but no DID. -/
def c2ResOpts : ResponseOptsM :=
  { signatureType := some (SigType.internal "deadbeef" "did:example:holder" none),
    did := none, state := none, nonce := none, expiresIn := none, vp := none }

/-- C2 fails on the code: a build call whose request advertises
JWK-thumbprint support and whose response options supply no DID does not
produce an IdToken with a thumbprint subject; it fails with BAD_PARAMS,
because createSIOPIDToken first runs assertValidResponseOpts, which requires
a truthy did (rp/Builder.ts line 683). The thumbprint branch at lines 629-633
is guarded by the absence of a did and is therefore unreachable. -/
theorem thumbprint_branch_unreachable_without_did :
    createSIOPIDToken buildCapsOk 1000 "uuid-1" c2Request c2ResOpts = .error .badParams :=
  rfl

/-- C8: nonce derivation of createSIOPIDToken (rp/Builder.ts lines 604-605).
On every successful build the IdToken nonce equals the verified request
nonce when truthy, otherwise the response-option nonce when truthy,
otherwise the value getNonce derives from the state (itself the option state
when truthy, else derived from the request state). The hypotheses are the
reachability conditions of the source: valid signature material, a truthy
did and request jwt, a registration with a subject-syntax list (otherwise
line 629 raises a TypeError) and a presentation-definition list that is
empty or has a genuine first definition (otherwise line 618 raises a
TypeError). -/
theorem idtoken_nonce_derivation (bc : BuildCaps) (now : Nat) (uuid : String)
    (verifiedJwt : VerifiedAuthReq) (resOpts : ResponseOptsM)
    (st : SigType) (r : RegistrationM) (sst : List String)
    (hst : resOpts.signatureType = some st) (hns : st ≠ SigType.noSig)
    (hdid : truthyS resOpts.did = true)
    (hjwt : truthyS verifiedJwt.jwt = true)
    (hreg : verifiedJwt.payload.registration = some r)
    (hsst : r.subjectSyntaxTypesSupported = some sst)
    (hdefs : verifiedJwt.presentationDefinitions = some [] ∨
      ∃ d rest pd, verifiedJwt.presentationDefinitions = some (d :: rest) ∧
        d.definition = some pd) :
    ∃ tok, createSIOPIDToken bc now uuid verifiedJwt resOpts = .ok tok ∧
      tok.nonce = jsOrS verifiedJwt.payload.nonce
        (jsOrS resOpts.nonce (getNonce (jsOrS resOpts.state (getState verifiedJwt.payload.state)))) := by
  have hvalid : assertValidResponseOpts resOpts = .ok () := by
    unfold assertValidResponseOpts
    rw [hst]
    cases st with
    | noSig => exact absurd rfl hns
    | internal a b c => simp [hdid]
    | external => simp [hdid]
    | supplied => simp [hdid]
  unfold createSIOPIDToken
  rw [hvalid]
  rcases hdefs with hd | ⟨d, rest, pd, hd, hpd⟩
  · simp [hjwt, hreg, hsst, hd, hdid]
  · simp [hjwt, hreg, hsst, hd, hpd, hdid]

/-- A verified request carrying a request nonce, used by the C8 witness. -/
def c8Request : VerifiedAuthReq :=
  { jwt := some "eyJs",
    payload :=
      { registration := some { subjectSyntaxTypesSupported := some ["did:key"] },
        state := some "st-2", nonce := some "req-nonce",
        redirect_uri := some "https://rp.example/cb" },
    presentationDefinitions := some [] }

/-- Response options with a DID and no nonce of their own, used by the C8
witness. -/
def c8ResOpts : ResponseOptsM :=
  { signatureType := some (SigType.internal "deadbeef" "did:example:holder" none),
    did := some "did:example:holder", state := none, nonce := none,
    expiresIn := none, vp := none }

/-- Witness for the C8 theorem: the concrete build succeeds and echoes the
request nonce. -/
theorem idtoken_nonce_derivation_witness :
    ∃ tok, createSIOPIDToken buildCapsOk 1000 "uuid-2" c8Request c8ResOpts = .ok tok ∧
      tok.nonce = jsOrS c8Request.payload.nonce
        (jsOrS c8ResOpts.nonce (getNonce (jsOrS c8ResOpts.state (getState c8Request.payload.state)))) :=
  idtoken_nonce_derivation buildCapsOk 1000 "uuid-2" c8Request c8ResOpts
    (SigType.internal "deadbeef" "did:example:holder" none)
    { subjectSyntaxTypesSupported := some ["did:key"] } ["did:key"]
    rfl (by decide) rfl rfl rfl rfl (Or.inl rfl)

/-- Modelled from the spec: the supported protocol versions enum
(SupportedVersion, defined in a types module that is not among the given
sources); only distinctness of its members matters here. -/
inductive SupportedVersion where
  | SIOPv2_ID1
  | SIOPv2_D11
  | JWT_VC_PRESENTATION_PROFILE_v1
deriving DecidableEq, Repr

/-- The list update performed by Builder.addSupportedVersion after
initSupportedVersions (rp/Builder.ts lines 301-307): push the version only
when it is not already included. -/
def addVersionToList (l : List SupportedVersion) (v : SupportedVersion) :
    List SupportedVersion :=
  if v ∈ l then l else l ++ [v]

/-- Embedding of Builder.addSupportedVersion on the optional
supportedVersions field: initSupportedVersions materializes the empty list
when the field is unset, then the dedup push runs. -/
def addSupportedVersion (s : Option (List SupportedVersion)) (v : SupportedVersion) :
    Option (List SupportedVersion) :=
  some (addVersionToList (s.getD []) v)

/-- Embedding of Builder.withSupportedVersions (rp/Builder.ts lines 309-315):
each version of the argument array is added in order; an empty array leaves
the field untouched (in particular still unset). -/
def withSupportedVersions (s : Option (List SupportedVersion))
    (vs : List SupportedVersion) : Option (List SupportedVersion) :=
  vs.foldl addSupportedVersion s

/-- A call in a sequence of version-registration calls on a Builder. -/
inductive VersionOp where
  | add (v : SupportedVersion)
  | withMany (vs : List SupportedVersion)
  | withOne (v : SupportedVersion)
deriving DecidableEq, Repr

/-- The versions an operation submits, in submission order
(withSupportedVersions wraps a single version into a one-element array). -/
def opVersions : VersionOp → List SupportedVersion
  | .add v => [v]
  | .withMany vs => vs
  | .withOne v => [v]

/-- Applies a sequence of version-registration calls to the builder field. -/
def applyVersionOps (s : Option (List SupportedVersion)) :
    List VersionOp → Option (List SupportedVersion)
  | [] => s
  | op :: ops =>
    applyVersionOps
      (match op with
       | .add v => addSupportedVersion s v
       | .withMany vs => withSupportedVersions s vs
       | .withOne v => withSupportedVersions s [v]) ops

/-- All versions submitted by a call sequence, in submission order. -/
def flatVersions (ops : List VersionOp) : List SupportedVersion :=
  (ops.map opVersions).flatten

/-- Embedding of Builder.getSupportedRequestVersion (rp/Builder.ts lines
327-335): an unset or empty list throws unless requireVersion is literally
false, and otherwise the head of the list is returned. -/
def getSupportedRequestVersion (s : Option (List SupportedVersion))
    (requireVersion : Option Bool) : Except SIOPError (Option SupportedVersion) :=
  match s with
  | none => if requireVersion ≠ some false then .error .noSupportedVersion else .ok none
  | some [] => if requireVersion ≠ some false then .error .noSupportedVersion else .ok none
  | some (v :: _) => .ok (some v)

/-- Every version-registration call reduces to a fold of elementary adds
over the versions it submits. -/
theorem applyVersionOps_eq_foldl (ops : List VersionOp)
    (s : Option (List SupportedVersion)) :
    applyVersionOps s ops = (flatVersions ops).foldl addSupportedVersion s := by
  induction ops generalizing s with
  | nil => rfl
  | cons op ops ih =>
    have hop : (match op with
        | .add v => addSupportedVersion s v
        | .withMany vs => withSupportedVersions s vs
        | .withOne v => withSupportedVersions s [v]) =
        (opVersions op).foldl addSupportedVersion s := by
      cases op <;> rfl
    simp only [applyVersionOps, hop, ih, flatVersions, List.map_cons, List.flatten_cons,
      List.foldl_append]

/-- Folding elementary adds over a set state stays set and folds the plain
list update. -/
theorem foldl_addSupportedVersion_some (l : List SupportedVersion)
    (acc : List SupportedVersion) :
    l.foldl addSupportedVersion (some acc) = some (l.foldl addVersionToList acc) := by
  induction l generalizing acc with
  | nil => rfl
  | cons v rest ih => simp only [List.foldl_cons, addSupportedVersion, Option.getD_some, ih]

/-- The dedup push preserves duplicate freedom. -/
theorem foldl_addVersionToList_nodup (l : List SupportedVersion)
    (acc : List SupportedVersion) (h : acc.Nodup) :
    (l.foldl addVersionToList acc).Nodup := by
  induction l generalizing acc with
  | nil => exact h
  | cons v rest ih =>
    refine ih _ ?_
    unfold addVersionToList
    by_cases hv : v ∈ acc
    · simpa [hv] using h
    · rw [if_neg hv, List.nodup_append]
      refine ⟨h, List.nodup_singleton v, fun a ha hb => ?_⟩
      simp at hb
      subst hb
      exact hv ha

/-- The dedup push never empties the list and preserves its head. -/
theorem foldl_addVersionToList_head (l : List SupportedVersion)
    (acc : List SupportedVersion) (h : acc ≠ []) :
    (l.foldl addVersionToList acc).head? = acc.head? ∧ l.foldl addVersionToList acc ≠ [] := by
  induction l generalizing acc with
  | nil => exact ⟨rfl, h⟩
  | cons v rest ih =>
    have hstep : (addVersionToList acc v).head? = acc.head? ∧ addVersionToList acc v ≠ [] := by
      unfold addVersionToList
      by_cases hv : v ∈ acc
      · simp [hv, h]
      · cases acc with
        | nil => exact absurd rfl h
        | cons a t => simp [hv]
    have := ih (addVersionToList acc v) hstep.2
    exact ⟨this.1.trans hstep.1, this.2⟩

/-- C10: for every sequence of addSupportedVersion and withSupportedVersions
calls starting from an unset field, the supportedVersions list holds no
duplicates; getSupportedRequestVersion returns the first version ever added
whenever one exists, and errors when the sequence added no version and a
version is required (requireVersion not literally false). -/
theorem supported_versions_invariant (ops : List VersionOp) :
    ((applyVersionOps none ops).getD []).Nodup ∧
    (∀ v rest, flatVersions ops = v :: rest →
      ∀ req, getSupportedRequestVersion (applyVersionOps none ops) req = .ok (some v)) ∧
    (∀ req, flatVersions ops = [] → req ≠ some false →
      getSupportedRequestVersion (applyVersionOps none ops) req = .error .noSupportedVersion) := by
  have happ := applyVersionOps_eq_foldl ops none
  cases hf : flatVersions ops with
  | nil =>
    rw [hf] at happ
    simp only [List.foldl_nil] at happ
    refine ⟨by simp [happ], ?_, ?_⟩
    · intro v rest hvr
      simp at hvr
    · intro req _ hreq
      simp [happ, getSupportedRequestVersion, hreq]
  | cons v rest =>
    rw [hf] at happ
    have hfirst : addSupportedVersion none v = some [v] := by
      simp [addSupportedVersion, addVersionToList]
    rw [List.foldl_cons, hfirst, foldl_addSupportedVersion_some] at happ
    have hh := foldl_addVersionToList_head rest [v] (by simp)
    refine ⟨?_, ?_, ?_⟩
    · rw [happ]
      simpa using foldl_addVersionToList_nodup rest [v] (by simp)
    · intro v' rest' hvr req
      injection hvr with h1 h2
      subst h1
      rw [happ]
      cases hl : rest.foldl addVersionToList [v] with
      | nil => exact absurd hl hh.2
      | cons w t =>
        have hw : some w = some v := by
          have h3 := hh.1
          rw [hl] at h3
          simpa using h3
        cases hw
        rfl
    · intro req hemp
      simp at hemp

/-- Witness for the C10 theorem: after adding a version and then a
with-call repeating it plus a second version, the first version added is
returned. -/
theorem supported_versions_invariant_witness :
    getSupportedRequestVersion
      (applyVersionOps none
        [VersionOp.add SupportedVersion.SIOPv2_ID1,
         VersionOp.withMany [SupportedVersion.SIOPv2_ID1, SupportedVersion.SIOPv2_D11]])
      none = .ok (some SupportedVersion.SIOPv2_ID1) :=
  (supported_versions_invariant
    [VersionOp.add SupportedVersion.SIOPv2_ID1,
     VersionOp.withMany [SupportedVersion.SIOPv2_ID1, SupportedVersion.SIOPv2_D11]]).2.1
    SupportedVersion.SIOPv2_ID1 [SupportedVersion.SIOPv2_ID1, SupportedVersion.SIOPv2_D11]
    rfl none
